import Mathlib

/-!
Shallow embedding of the settings-dialog core of the PasteImagesAsWebP add-on
(src/gui.py and src/widgets/image_slider_box.py), together with theorems
settling the spec's claims about it.

Machine integers: Python integers are unbounded, so slider values are plain
`Int`, image dimensions plain `Nat`.  The scale factors (1/8, 1/4, 1/2, 1,
1.5, 2) are all dyadic rationals `k/8` that are exact in Python floats, and
`image.width * factor` multiplies an integer below 2^53 by such a factor, so
the float product is exactly `width * k / 8`; Python `int()` truncates toward
zero, which for non-negative arguments is `Nat` floor division by 8.
-/

namespace PasteImagesAsWebP

/-- `ImageDimensions` from src/gui.py (a NamedTuple of two ints). -/
structure ImageDimensions where
  width : Nat
  height : Nat
deriving DecidableEq, Repr

/-- Modelled from the spec: `RichSlider` (src/widgets/rich_slider.py is not in
the excerpt).  Per the spec it is a bounded integer control with a label, a
unit and a configured upper limit, with state `value` and `limit` and
invariant `0 <= value <= limit`. -/
structure RichSlider where
  title : String
  unit : String
  limit : Int
  value : Int
deriving DecidableEq, Repr

/-- Modelled from the spec: the `RichSlider` value setter clamps an attempted
set-value `v` to `clamp(v, 0, limit)` (spec section 8, property 1). -/
def RichSlider.set (s : RichSlider) (v : Int) : RichSlider :=
  { s with value := min (max v 0) s.limit }

/-- The flat map `{image_width, image_height, image_quality}` produced by
`ImageSliderBox.as_dict` (src/widgets/image_slider_box.py lines 22-23). -/
structure SliderValues where
  image_width : Int
  image_height : Int
  image_quality : Int
deriving DecidableEq, Repr

/-- `ImageSliderBox` (src/widgets/image_slider_box.py lines 11-18): owns three
`RichSlider`s keyed `image_width`, `image_height`, `image_quality`. -/
structure ImageSliderBox where
  image_width : RichSlider
  image_height : RichSlider
  image_quality : RichSlider
deriving DecidableEq, Repr

/-- `ImageSliderBox.as_dict` (image_slider_box.py lines 22-23). -/
def ImageSliderBox.as_dict (b : ImageSliderBox) : SliderValues :=
  { image_width := b.image_width.value
    image_height := b.image_height.value
    image_quality := b.image_quality.value }

/-- The `width` property getter (image_slider_box.py lines 29-31). -/
def ImageSliderBox.width (b : ImageSliderBox) : Int :=
  b.image_width.value

/-- The `height` property getter (image_slider_box.py lines 37-39). -/
def ImageSliderBox.height (b : ImageSliderBox) : Int :=
  b.image_height.value

/-- The `quality` property getter (image_slider_box.py lines 25-27). -/
def ImageSliderBox.quality (b : ImageSliderBox) : Int :=
  b.image_quality.value

/-- The `width` property setter (image_slider_box.py lines 33-35); delegates
to the slider's value setter. -/
def ImageSliderBox.setWidth (b : ImageSliderBox) (v : Int) : ImageSliderBox :=
  { b with image_width := b.image_width.set v }

/-- The `height` property setter (image_slider_box.py lines 41-43). -/
def ImageSliderBox.setHeight (b : ImageSliderBox) (v : Int) : ImageSliderBox :=
  { b with image_height := b.image_height.set v }

/-- Setting the quality slider's value (the dict entry `image_quality`),
used when a preset is applied to the panel. -/
def ImageSliderBox.setQuality (b : ImageSliderBox) (v : Int) : ImageSliderBox :=
  { b with image_quality := b.image_quality.set v }

/-- `ImageSliderBox.populate` (image_slider_box.py lines 53-55): writes
`config.get(key)` into each of the three sliders through the value setter. -/
def ImageSliderBox.populate (b : ImageSliderBox) (cfg : SliderValues) : ImageSliderBox :=
  { b with
    image_width := b.image_width.set cfg.image_width
    image_height := b.image_height.set cfg.image_height
    image_quality := b.image_quality.set cfg.image_quality }

/-- The six scale factors `(1/8, 1/4, 1/2, 1, 1.5, 2)` of
`PasteDialog.create_scale_options_grid` (src/gui.py line 154). -/
inductive Factor
  | eighth
  | quarter
  | half
  | one
  | threeHalves
  | two
deriving DecidableEq, Repr

/-- Each factor written as a numerator over the common denominator 8. -/
def Factor.num8 : Factor → Nat
  | .eighth => 1
  | .quarter => 2
  | .half => 4
  | .one => 8
  | .threeHalves => 12
  | .two => 16

/-- Python `int(dim * factor)`: the float product is exactly `dim * k / 8`
(see header comment) and `int()` truncates toward zero, i.e. floor for
non-negative values, i.e. `Nat` division. -/
def scaleDim (dim : Nat) (f : Factor) : Nat :=
  dim * f.num8 / 8

/-- A preset record: a named snapshot of the panel parameters (spec data
model; `PresetsEditor` widget source is not in the excerpt). -/
structure Preset where
  name : String
  image_width : Int
  image_height : Int
  image_quality : Int
deriving DecidableEq, Repr

/-- The keys of the process-wide configuration map that the three dialogs
read and write (src/gui.py lines 76-84, 110-122, 211-231). -/
structure Config where
  image_width : Int
  image_height : Int
  image_quality : Int
  saved_presets : List Preset
  bulk_convert_fields : List String
  bulk_reconvert_webp : Bool
  show_settings : String
  filename_pattern_num : Int
  drag_and_drop : Bool
  copy_paste : Bool
  avoid_upscaling : Bool
  preserve_original_filenames : Bool
  max_image_width : Int
  max_image_height : Int
deriving DecidableEq, Repr

/-- Observable side effects of a dialog: how many times `write_config()`
persisted the map, how many times `showInfo` notified the user, and whether
the dialog was accepted (closed via `QDialog.accept`). -/
structure Effects where
  write_config_calls : Nat
  showInfo_calls : Nat
  accepted : Bool
deriving DecidableEq, Repr

/-- No effect has happened yet. -/
def Effects.none : Effects :=
  { write_config_calls := 0, showInfo_calls := 0, accepted := false }

/-- Modelled from the spec: `FieldSelector` (widget source not in the
excerpt).  State is an enabled toggle (`isChecked`), the available names and
the ordered list of currently-checked names (`selected_fields`). -/
structure FieldSelector where
  checked : Bool
  available : List String
  selected : List String
deriving DecidableEq, Repr

/-- `FieldSelector.selected_fields()`: the currently-checked names. -/
def FieldSelector.selected_fields (fs : FieldSelector) : List String :=
  fs.selected

/-- The in-memory state of the base `SettingsDialog` (src/gui.py lines
36-48): the slider box and the presets editor (whose item list models
`PresetsEditor.as_list`, per the spec an ordered list of records). -/
structure SettingsDialog where
  sliders : ImageSliderBox
  presets_editor : List Preset
deriving DecidableEq, Repr

/-- `SettingsDialog.accept` (src/gui.py lines 80-84): update the three slider
keys from `as_dict`, overwrite `saved_presets` from the presets editor, call
`write_config()`, then `QDialog.accept`. -/
def SettingsDialog.accept (d : SettingsDialog) (cfg : Config) : Config × Effects :=
  let vals := d.sliders.as_dict
  ({ cfg with
      image_width := vals.image_width
      image_height := vals.image_height
      image_quality := vals.image_quality
      saved_presets := d.presets_editor },
   { write_config_calls := 1, showInfo_calls := 0, accepted := true })

/-- `BulkConvertDialog` state (src/gui.py lines 91-97): the base dialog plus
a field selector and a reconvert checkbox. -/
structure BulkConvertDialog where
  base : SettingsDialog
  field_selector : FieldSelector
  reconvert_checkbox : Bool
deriving DecidableEq, Repr

/-- `BulkConvertDialog.accept` (src/gui.py lines 116-122): if the field
selector is checked and no field is selected, `showInfo` once and return
without touching the configuration (the dialog stays open); otherwise write
the selected fields and the reconvert flag and run the base accept. -/
def BulkConvertDialog.accept (d : BulkConvertDialog) (cfg : Config) : Config × Effects :=
  if d.field_selector.checked && d.field_selector.selected_fields.isEmpty then
    (cfg, { write_config_calls := 0, showInfo_calls := 1, accepted := false })
  else
    SettingsDialog.accept d.base
      { cfg with
          bulk_convert_fields := d.field_selector.selected_fields
          bulk_reconvert_webp := d.reconvert_checkbox }

/-- `PasteDialog` state (src/gui.py lines 130-135): the base dialog plus the
immutable original image dimensions. -/
structure PasteDialog where
  base : SettingsDialog
  image : ImageDimensions
deriving DecidableEq, Repr

/-- `PasteDialog.adjust_sliders` (src/gui.py lines 146-150): for each of
width and height, if the panel's current value is positive, write
`int(original_dim * factor)` through the slider setter; a zero dimension is
left untouched. -/
def PasteDialog.adjust_sliders (d : PasteDialog) (factor : Factor) : PasteDialog :=
  let s1 :=
    if d.base.sliders.width > 0 then
      d.base.sliders.setWidth (scaleDim d.image.width factor)
    else
      d.base.sliders
  let s2 :=
    if s1.height > 0 then
      s1.setHeight (scaleDim d.image.height factor)
    else
      s1
  { d with base := { d.base with sliders := s2 } }

/-- `PasteDialog.accept` is inherited unchanged from `SettingsDialog`. -/
def PasteDialog.accept (d : PasteDialog) (cfg : Config) : Config × Effects :=
  SettingsDialog.accept d.base cfg

/-- `SettingsMenuDialog` state (src/gui.py lines 165-179): the base dialog
plus two combo boxes and four behavior checkboxes. -/
structure SettingsMenuDialog where
  base : SettingsDialog
  when_show_dialog : String
  filename_pattern_num : Int
  drag_and_drop : Bool
  copy_paste : Bool
  avoid_upscaling : Bool
  preserve_original_filenames : Bool
deriving DecidableEq, Repr

/-- `SettingsMenuDialog.accept` (src/gui.py lines 225-231): write the two
combo-box choices and the four checkbox keys, then run the base accept. -/
def SettingsMenuDialog.accept (d : SettingsMenuDialog) (cfg : Config) : Config × Effects :=
  SettingsDialog.accept d.base
    { cfg with
        show_settings := d.when_show_dialog
        filename_pattern_num := d.filename_pattern_num
        drag_and_drop := d.drag_and_drop
        copy_paste := d.copy_paste
        avoid_upscaling := d.avoid_upscaling
        preserve_original_filenames := d.preserve_original_filenames }

/-- `get_all_keys` (src/gui.py lines 87-88): `sorted(set(chain(*keys)))` over
the notes' field-name lists; a note is modelled by its list of field names.
Python's `set` is deduplication and `sorted` a comparison sort, modelled as
`dedup` followed by `insertionSort` on the string order. -/
def get_all_keys (notes : List (List String)) : List String :=
  (notes.flatten.dedup).insertionSort (· ≤ ·)

/-! ## Control mutations while a dialog is open

Every interactive control of the three dialogs mutates only in-memory widget
state; the configuration map is read in `set_initial_values` and written in
`accept` only.  The events below are the user interactions each dialog
offers (src/gui.py: slider drags, preset add/apply/remove, scale-button
presses, checkbox toggles, combo-box choices); preset-editor behavior is
modelled from the spec (add/apply/remove, apply copies a preset's params
into the live panel and does not itself commit). -/

/-- Mutations available on every dialog: the three sliders and the presets
editor. -/
inductive BaseEvent
  | setWidth (v : Int)
  | setHeight (v : Int)
  | setQuality (v : Int)
  | presetAdd (p : Preset)
  | presetRemove (i : Nat)
  | presetApply (i : Nat)
deriving DecidableEq, Repr

/-- Effect of a base mutation on the base dialog's widget state. -/
def SettingsDialog.applyBase (d : SettingsDialog) : BaseEvent → SettingsDialog
  | .setWidth v => { d with sliders := d.sliders.setWidth v }
  | .setHeight v => { d with sliders := d.sliders.setHeight v }
  | .setQuality v => { d with sliders := d.sliders.setQuality v }
  | .presetAdd p => { d with presets_editor := d.presets_editor ++ [p] }
  | .presetRemove i => { d with presets_editor := d.presets_editor.eraseIdx i }
  | .presetApply i =>
    match d.presets_editor.get? i with
    | some p =>
      let applied := ((d.sliders.setWidth p.image_width).setHeight p.image_height).setQuality p.image_quality
      { d with sliders := applied }
    | none => d

/-- Mutations available on a `PasteDialog`: base mutations plus the
scale-button grid (src/gui.py lines 152-162). -/
inductive PasteEvent
  | base (e : BaseEvent)
  | scalePress (f : Factor)
deriving DecidableEq, Repr

/-- Effect of a `PasteDialog` mutation on its widget state. -/
def PasteDialog.applyEvent (d : PasteDialog) : PasteEvent → PasteDialog
  | .base e => { d with base := d.base.applyBase e }
  | .scalePress f => d.adjust_sliders f

/-- Mutations available on a `BulkConvertDialog`: base mutations plus the
field selector and the reconvert checkbox. -/
inductive BulkEvent
  | base (e : BaseEvent)
  | toggleFieldRestriction (b : Bool)
  | setSelectedFields (sel : List String)
  | toggleReconvert (b : Bool)
deriving DecidableEq, Repr

/-- Effect of a `BulkConvertDialog` mutation on its widget state. -/
def BulkConvertDialog.applyEvent (d : BulkConvertDialog) : BulkEvent → BulkConvertDialog
  | .base e => { d with base := d.base.applyBase e }
  | .toggleFieldRestriction b => { d with field_selector := { d.field_selector with checked := b } }
  | .setSelectedFields sel => { d with field_selector := { d.field_selector with selected := sel } }
  | .toggleReconvert b => { d with reconvert_checkbox := b }

/-- Mutations available on a `SettingsMenuDialog`: base mutations plus two
combo boxes and four behavior checkboxes. -/
inductive MenuEvent
  | base (e : BaseEvent)
  | chooseShowSettings (s : String)
  | chooseFilenamePattern (n : Int)
  | setDragAndDrop (b : Bool)
  | setCopyPaste (b : Bool)
  | setAvoidUpscaling (b : Bool)
  | setPreserveFilenames (b : Bool)
deriving DecidableEq, Repr

/-- Effect of a `SettingsMenuDialog` mutation on its widget state. -/
def SettingsMenuDialog.applyEvent (d : SettingsMenuDialog) : MenuEvent → SettingsMenuDialog
  | .base e => { d with base := d.base.applyBase e }
  | .chooseShowSettings s => { d with when_show_dialog := s }
  | .chooseFilenamePattern n => { d with filename_pattern_num := n }
  | .setDragAndDrop b => { d with drag_and_drop := b }
  | .setCopyPaste b => { d with copy_paste := b }
  | .setAvoidUpscaling b => { d with avoid_upscaling := b }
  | .setPreserveFilenames b => { d with preserve_original_filenames := b }

/-- One open dialog of widget-state type `D` together with the shared
configuration map and the effects observed so far. -/
structure Session (D : Type) where
  dialog : D
  config : Config
  effects : Effects

/-- Handling one user interaction: the event handler mutates only the widget
state (src/gui.py wires sliders, buttons and checkboxes to widget setters and
`adjust_sliders`; none of the handlers touches `config`). -/
def Session.step {D E : Type} (applyEvent : D → E → D) (s : Session D) (e : E) : Session D :=
  { s with dialog := applyEvent s.dialog e }

/-- `QDialog.reject`, wired to the Cancel button in `setup_logic` (src/gui.py
line 73): closes the dialog, running none of the `accept` overrides. -/
def Session.reject {D : Type} (s : Session D) : Session D :=
  s

/-- A whole cancelled dialog session: open on configuration `cfg`, handle the
mutation events `evs` in order, then cancel; returns the final configuration
and observed effects. -/
def runCancelled {D E : Type} (applyEvent : D → E → D) (d : D) (cfg : Config)
    (evs : List E) : Config × Effects :=
  let s :=
    (evs.foldl (Session.step applyEvent)
      { dialog := d, config := cfg, effects := Effects.none }).reject
  (s.config, s.effects)

/-! ## Lifecycle traces

`SettingsDialog.exec` (src/gui.py lines 56-58) runs `setup_ui` to completion
and only then enters the Qt event loop (the dialog becomes interactive);
`setup_ui` (lines 50-54) runs the four phase hooks sequentially.  Each hook's
body is a straight-line sequence of widget actions; subclass overrides of
`populate_main_vbox` and `set_initial_values` extend the base body.  The
traces below record those actions tagged with the phase they run under. -/

/-- One widget-level action performed during dialog setup. -/
inductive UIStep
  | addLayout (name : String)
  | addStretch
  | addWidget (name : String)
  | connectSignal (sig : String) (slot : String)
  | setFocus (name : String)
  | loadControl (name : String)
deriving DecidableEq, Repr

/-- The lifecycle phases of the dialog protocol, plus the terminal states of
a session. -/
inductive Phase
  | buildLayout
  | populateLayout
  | wireInteractions
  | loadInitialValues
  | interactive
  | commit
  | cancelled
deriving DecidableEq, Repr

/-- The three dialog specializations. -/
inductive DialogKind
  | bulkConvert
  | paste
  | settingsMenu
deriving DecidableEq, Repr

/-- `create_main_layout` body (src/gui.py lines 60-65). -/
def SettingsDialog.create_main_layout_steps : List UIStep :=
  [.addLayout "_main_vbox", .addStretch, .addWidget "_button_box"]

/-- Base `populate_main_vbox` body (src/gui.py lines 67-69). -/
def SettingsDialog.populate_main_vbox_steps : List UIStep :=
  [.addWidget "_sliders", .addWidget "presets_editor"]

/-- `setup_logic` body (src/gui.py lines 71-74), not overridden by any
specialization. -/
def SettingsDialog.setup_logic_steps : List UIStep :=
  [.connectSignal "accepted" "accept", .connectSignal "rejected" "reject",
   .setFocus "ok_button"]

/-- Base `set_initial_values` body (src/gui.py lines 76-78). -/
def SettingsDialog.set_initial_values_steps : List UIStep :=
  [.loadControl "_sliders.populate", .loadControl "presets_editor.add_items"]

/-- `populate_main_vbox` per specialization: each override calls the base
first and then appends its own widgets (src/gui.py lines 105-108, 137-139,
195-197). -/
def DialogKind.populate_main_vbox_steps : DialogKind → List UIStep
  | .bulkConvert =>
    SettingsDialog.populate_main_vbox_steps
      ++ [.addWidget "_field_selector", .addWidget "_reconvert_checkbox"]
  | .paste =>
    SettingsDialog.populate_main_vbox_steps ++ [.addWidget "scale_settings_group_box"]
  | .settingsMenu =>
    SettingsDialog.populate_main_vbox_steps
      ++ [.addWidget "additional_settings_group_box"]

/-- `set_initial_values` per specialization: the bulk-convert dialog loads
its own controls before delegating to the base (src/gui.py lines 110-114),
the menu dialog after (lines 211-217), the paste dialog inherits the base. -/
def DialogKind.set_initial_values_steps : DialogKind → List UIStep
  | .bulkConvert =>
    [.loadControl "_field_selector.add_fields", .loadControl "_field_selector.set_fields",
     .loadControl "_reconvert_checkbox"]
      ++ SettingsDialog.set_initial_values_steps
  | .paste => SettingsDialog.set_initial_values_steps
  | .settingsMenu =>
    SettingsDialog.set_initial_values_steps
      ++ [.loadControl "when_show_dialog_combo_box",
          .loadControl "filename_pattern_combo_box", .loadControl "checkboxes"]

/-- The `setup_ui` trace (src/gui.py lines 50-54): the four phase hooks run
sequentially, each to completion, every widget action tagged with the phase
hook it runs under. -/
def setup_ui_trace (k : DialogKind) : List (Phase × UIStep) :=
  SettingsDialog.create_main_layout_steps.map (fun s => (Phase.buildLayout, s))
    ++ (k.populate_main_vbox_steps).map (fun s => (Phase.populateLayout, s))
    ++ SettingsDialog.setup_logic_steps.map (fun s => (Phase.wireInteractions, s))
    ++ (k.set_initial_values_steps).map (fun s => (Phase.loadInitialValues, s))

/-- The phase history of a whole dialog invocation: `exec` runs `setup_ui`,
then the dialog becomes interactive, and the session ends either in a commit
(Ok pressed, `accept` runs) or cancelled (src/gui.py lines 56-58, 71-74). -/
def sessionPhases (k : DialogKind) (accepted : Bool) : List Phase :=
  (setup_ui_trace k).map Prod.fst ++ [Phase.interactive]
    ++ (if accepted then [Phase.commit] else [Phase.cancelled])

/-! ## Concrete fixtures

Closed dialog states used by witnesses and counterexamples. -/

/-- A slider box with the constructor's slider layout (image_slider_box.py
lines 14-18): width and height limited by the configured maxima, quality
limited by 100. -/
def boxOf (w h q maxW maxH : Int) : ImageSliderBox :=
  { image_width := { title := "Width", unit := "px", limit := maxW, value := w }
    image_height := { title := "Height", unit := "px", limit := maxH, value := h }
    image_quality := { title := "Quality", unit := "%", limit := 100, value := q } }

/-- A paste dialog over a given original image with given panel values. -/
def pasteFixture (iw ih : Nat) (w h : Int) : PasteDialog :=
  { base := { sliders := boxOf w h 90 99999 99999, presets_editor := [] }
    image := { width := iw, height := ih } }

/-- A closed configuration map. -/
def configFixture : Config :=
  { image_width := 0
    image_height := 0
    image_quality := 90
    saved_presets := []
    bulk_convert_fields := []
    bulk_reconvert_webp := false
    show_settings := "always"
    filename_pattern_num := 0
    drag_and_drop := true
    copy_paste := true
    avoid_upscaling := true
    preserve_original_filenames := true
    max_image_width := 99999
    max_image_height := 99999 }

/-! ## Helper lemmas -/

/-- The slider setter does not change the configured limit. -/
lemma RichSlider.limit_set (s : RichSlider) (v : Int) : (s.set v).limit = s.limit :=
  rfl

/-- The slider setter stores the clamped value. -/
lemma RichSlider.value_set (s : RichSlider) (v : Int) :
    (s.set v).value = min (max v 0) s.limit :=
  rfl

/-- Setting the same value twice is the same as setting it once. -/
lemma RichSlider.set_set (s : RichSlider) (v : Int) : (s.set v).set v = s.set v :=
  rfl

/-- Normal form of `adjust_sliders`: the two sequential guarded writes act
componentwise on the width and height sliders and leave quality alone. -/
lemma PasteDialog.adjust_sliders_eq (d : PasteDialog) (f : Factor) :
    d.adjust_sliders f =
      { d with base := { d.base with sliders :=
        { image_width :=
            if d.base.sliders.width > 0 then
              d.base.sliders.image_width.set ((scaleDim d.image.width f : Int))
            else d.base.sliders.image_width
          image_height :=
            if d.base.sliders.height > 0 then
              d.base.sliders.image_height.set ((scaleDim d.image.height f : Int))
            else d.base.sliders.image_height
          image_quality := d.base.sliders.image_quality } } } := by
  unfold PasteDialog.adjust_sliders
  by_cases hw : 0 < d.base.sliders.image_width.value <;>
    by_cases hh : 0 < d.base.sliders.image_height.value <;>
      simp [hw, hh, ImageSliderBox.setWidth, ImageSliderBox.setHeight, ImageSliderBox.width,
        ImageSliderBox.height]

/-- A zero width is left at zero by a scale press. -/
lemma width_adjust_zero (d : PasteDialog) (f : Factor)
    (h : d.base.sliders.width = 0) :
    (d.adjust_sliders f).base.sliders.width = 0 := by
  rw [PasteDialog.adjust_sliders_eq]
  simp only [ImageSliderBox.width] at h ⊢
  simp [h]

/-- A zero height is left at zero by a scale press. -/
lemma height_adjust_zero (d : PasteDialog) (f : Factor)
    (h : d.base.sliders.height = 0) :
    (d.adjust_sliders f).base.sliders.height = 0 := by
  rw [PasteDialog.adjust_sliders_eq]
  simp only [ImageSliderBox.height] at h ⊢
  simp [h]

/-- A positive width is rewritten to the truncated scaled width, clamped by
the slider setter. -/
lemma width_adjust_pos (d : PasteDialog) (f : Factor)
    (h : d.base.sliders.width > 0) :
    (d.adjust_sliders f).base.sliders.width
      = min (max ((scaleDim d.image.width f : Int)) 0) d.base.sliders.image_width.limit := by
  rw [PasteDialog.adjust_sliders_eq]
  simp only [ImageSliderBox.width] at h ⊢
  simp [h, RichSlider.set]

/-- A positive height is rewritten to the truncated scaled height, clamped by
the slider setter. -/
lemma height_adjust_pos (d : PasteDialog) (f : Factor)
    (h : d.base.sliders.height > 0) :
    (d.adjust_sliders f).base.sliders.height
      = min (max ((scaleDim d.image.height f : Int)) 0) d.base.sliders.image_height.limit := by
  rw [PasteDialog.adjust_sliders_eq]
  simp only [ImageSliderBox.height] at h ⊢
  simp [h, RichSlider.set]

/-- With both dimensions at zero a scale press is a no-op on the dialog. -/
lemma adjust_noop_of_auto (d : PasteDialog) (f : Factor)
    (hw : d.base.sliders.width = 0) (hh : d.base.sliders.height = 0) :
    d.adjust_sliders f = d := by
  rw [PasteDialog.adjust_sliders_eq, hw, hh]
  rfl

/-- Pressing the same scale button twice is the same as pressing it once. -/
lemma adjust_sliders_idem (d : PasteDialog) (f : Factor) :
    (d.adjust_sliders f).adjust_sliders f = d.adjust_sliders f := by
  rw [PasteDialog.adjust_sliders_eq d f, PasteDialog.adjust_sliders_eq]
  by_cases hw : d.base.sliders.width > 0 <;> by_cases hh : d.base.sliders.height > 0 <;>
    simp only [ImageSliderBox.width, ImageSliderBox.height] at hw hh <;>
      simp [hw, hh, ImageSliderBox.width, ImageSliderBox.height, RichSlider.set]

/-- Repeated scale presses cannot revive a zero width. -/
lemma foldl_adjust_width_zero (fs : List Factor) (d : PasteDialog)
    (h : d.base.sliders.width = 0) :
    (fs.foldl PasteDialog.adjust_sliders d).base.sliders.width = 0 := by
  induction fs generalizing d with
  | nil => exact h
  | cons f fs ih => exact ih _ (width_adjust_zero d f h)

/-- Event handlers mutate only widget state, so a cancelled session returns
the configuration untouched and performs no effect. -/
lemma runCancelled_const {D E : Type} (applyEvent : D → E → D) (d : D) (cfg : Config)
    (evs : List E) :
    runCancelled applyEvent d cfg evs = (cfg, Effects.none) := by
  unfold runCancelled Session.reject
  have h : ∀ s : Session D,
      (evs.foldl (Session.step applyEvent) s).config = s.config
      ∧ (evs.foldl (Session.step applyEvent) s).effects = s.effects := by
    induction evs with
    | nil => intro s; exact ⟨rfl, rfl⟩
    | cons e es ih => intro s; simpa [Session.step] using ih (Session.step applyEvent s e)
  obtain ⟨h1, h2⟩ := h { dialog := d, config := cfg, effects := Effects.none }
  exact congrArg₂ Prod.mk h1 h2

/-! ## Claims -/

/-- C1 counterexample: the claim says a scale press sets the new width to
`round(original.width * f)`, but the code stores `int(original.width * f)`,
which truncates: for original width 7 and factor 1/8 the code stores
`int(0.875) = 0` while the nearest integer is `round(7/8) = 1`. -/
theorem scale_derivation_round_cex :
    ¬ ((((pasteFixture 7 600 7 600).adjust_sliders Factor.eighth).base.sliders.width : Int)
        = round ((7 : ℚ) * (1 / 8))) := by
  have h1 : ((pasteFixture 7 600 7 600).adjust_sliders Factor.eighth).base.sliders.width = 0 := by
    decide
  have h2 : round ((7 : ℚ) * (1 / 8)) = 1 := by norm_num [round_eq]
  rw [h1, h2]
  decide

/-- C1 (amended): for every original image size and every factor f of the
six, if the panel's width (resp. height) is non-zero then a scale press sets
it to `int(original * f)` — the product truncated toward zero — clamped into
`[0, limit]` by the slider setter. -/
theorem scale_derivation_truncated (d : PasteDialog) (f : Factor) :
    (d.base.sliders.width > 0 →
      (d.adjust_sliders f).base.sliders.width
        = min (max ((scaleDim d.image.width f : Int)) 0) d.base.sliders.image_width.limit)
    ∧ (d.base.sliders.height > 0 →
      (d.adjust_sliders f).base.sliders.height
        = min (max ((scaleDim d.image.height f : Int)) 0) d.base.sliders.image_height.limit) :=
  ⟨width_adjust_pos d f, height_adjust_pos d f⟩

/-- C1 witness: with original 800 x 600 and panel 800 x 600 (limits 99999),
factor 0.5 yields 400 x 300 and factor 2 yields 1600 x 1200. -/
theorem scale_derivation_truncated_witness :
    ((pasteFixture 800 600 800 600).adjust_sliders Factor.half).base.sliders.width = 400
    ∧ ((pasteFixture 800 600 800 600).adjust_sliders Factor.half).base.sliders.height = 300
    ∧ ((pasteFixture 800 600 800 600).adjust_sliders Factor.two).base.sliders.width = 1600
    ∧ ((pasteFixture 800 600 800 600).adjust_sliders Factor.two).base.sliders.height = 1200 := by
  have hhalf := scale_derivation_truncated (pasteFixture 800 600 800 600) Factor.half
  have htwo := scale_derivation_truncated (pasteFixture 800 600 800 600) Factor.two
  refine ⟨(hhalf.1 (by decide)).trans (by decide), (hhalf.2 (by decide)).trans (by decide),
    (htwo.1 (by decide)).trans (by decide), (htwo.2 (by decide)).trans (by decide)⟩

/-- C2: for every bulk-convert dialog state and configuration, if the field
selector is checked and no field is selected, `accept` leaves the
configuration unchanged, fails (the dialog is not accepted) and notifies
exactly once; otherwise it writes the selected fields, the reconvert flag
and the base panel values and succeeds with exactly one persist. -/
theorem bulk_accept_commit_or_nothing (d : BulkConvertDialog) (cfg : Config) :
    (d.field_selector.checked = true → d.field_selector.selected_fields = [] →
      d.accept cfg
        = (cfg, { write_config_calls := 0, showInfo_calls := 1, accepted := false }))
    ∧ ((d.field_selector.checked = false ∨ d.field_selector.selected_fields ≠ []) →
      (d.accept cfg).1
          = { cfg with
              bulk_convert_fields := d.field_selector.selected_fields
              bulk_reconvert_webp := d.reconvert_checkbox
              image_width := d.base.sliders.image_width.value
              image_height := d.base.sliders.image_height.value
              image_quality := d.base.sliders.image_quality.value
              saved_presets := d.base.presets_editor }
        ∧ (d.accept cfg).2
          = { write_config_calls := 1, showInfo_calls := 0, accepted := true }) := by
  constructor
  · intro h1 h2
    simp only [FieldSelector.selected_fields] at h2
    simp [BulkConvertDialog.accept, FieldSelector.selected_fields, h1, h2]
  · intro h
    have hnc : ¬ (d.field_selector.checked = true ∧ d.field_selector.selected = []) := by
      cases h with
      | inl h1 => simp [h1]
      | inr h2 =>
        simp only [FieldSelector.selected_fields] at h2
        simp [h2]
    simp [BulkConvertDialog.accept, hnc, SettingsDialog.accept, ImageSliderBox.as_dict,
      FieldSelector.selected_fields]

/-- C2 witness: concrete checked-but-empty state is rejected with one
notification and an untouched configuration; a state with a selected field
is accepted. -/
theorem bulk_accept_commit_or_nothing_witness :
    BulkConvertDialog.accept
        { base := { sliders := boxOf 640 480 90 99999 99999, presets_editor := [] }
          field_selector := { checked := true, available := ["Front", "Back"], selected := [] }
          reconvert_checkbox := false }
        configFixture
      = (configFixture, { write_config_calls := 0, showInfo_calls := 1, accepted := false })
    ∧ (BulkConvertDialog.accept
        { base := { sliders := boxOf 640 480 90 99999 99999, presets_editor := [] }
          field_selector :=
            { checked := true, available := ["Front", "Back"], selected := ["Front"] }
          reconvert_checkbox := true }
        configFixture).2.accepted = true := by
  constructor
  · exact (bulk_accept_commit_or_nothing _ configFixture).1 rfl rfl
  · have h := (bulk_accept_commit_or_nothing
      { base := { sliders := boxOf 640 480 90 99999 99999, presets_editor := [] }
        field_selector :=
          { checked := true, available := ["Front", "Back"], selected := ["Front"] }
        reconvert_checkbox := true }
      configFixture).2 (Or.inr (by decide))
    rw [h.2]

/-- C3: a zero width stays zero under every scale press, symmetrically for
height, and with both dimensions zero a scale press is a no-op on the
dialog. -/
theorem adjust_sliders_preserves_auto (d : PasteDialog) (f : Factor) :
    (d.base.sliders.width = 0 → (d.adjust_sliders f).base.sliders.width = 0)
    ∧ (d.base.sliders.height = 0 → (d.adjust_sliders f).base.sliders.height = 0)
    ∧ (d.base.sliders.width = 0 → d.base.sliders.height = 0 → d.adjust_sliders f = d) :=
  ⟨width_adjust_zero d f, height_adjust_zero d f, adjust_noop_of_auto d f⟩

/-- C3 witness: a panel with width and height 0 is untouched by a 1.5x
press. -/
theorem adjust_sliders_preserves_auto_witness :
    ((pasteFixture 800 600 0 0).adjust_sliders Factor.threeHalves).base.sliders.width = 0
    ∧ ((pasteFixture 800 600 0 0).adjust_sliders Factor.threeHalves).base.sliders.height = 0
    ∧ (pasteFixture 800 600 0 0).adjust_sliders Factor.threeHalves = pasteFixture 800 600 0 0 := by
  have h := adjust_sliders_preserves_auto (pasteFixture 800 600 0 0) Factor.threeHalves
  exact ⟨h.1 rfl, h.2.1 rfl, h.2.2 rfl rfl⟩

/-- C4: loading the panel from its own serialized map is the identity on the
panel, for every valid panel state (each value within its bound). -/
theorem populate_as_dict_id (b : ImageSliderBox)
    (hw0 : 0 ≤ b.image_width.value) (hw1 : b.image_width.value ≤ b.image_width.limit)
    (hh0 : 0 ≤ b.image_height.value) (hh1 : b.image_height.value ≤ b.image_height.limit)
    (hq0 : 0 ≤ b.image_quality.value) (hq1 : b.image_quality.value ≤ b.image_quality.limit) :
    b.populate b.as_dict = b := by
  have e : ∀ s : RichSlider, 0 ≤ s.value → s.value ≤ s.limit → s.set s.value = s := by
    intro s h0 h1
    unfold RichSlider.set
    rw [max_eq_left h0, min_eq_left h1]
  unfold ImageSliderBox.populate ImageSliderBox.as_dict
  rw [e _ hw0 hw1, e _ hh0 hh1, e _ hq0 hq1]

/-- C4 witness: the round-trip is the identity on a concrete valid panel. -/
theorem populate_as_dict_id_witness :
    (boxOf 800 600 90 99999 99999).populate (boxOf 800 600 90 99999 99999).as_dict
      = boxOf 800 600 90 99999 99999 :=
  populate_as_dict_id _ (by decide) (by decide) (by decide) (by decide) (by decide) (by decide)

/-- C5: for each of the three dialog specializations and every sequence of
control mutations, cancelling instead of accepting returns the configuration
map unchanged with no persistence and no notification. -/
theorem cancel_has_no_side_effects :
    (∀ (d : PasteDialog) (cfg : Config) (evs : List PasteEvent),
        runCancelled PasteDialog.applyEvent d cfg evs = (cfg, Effects.none))
    ∧ (∀ (d : BulkConvertDialog) (cfg : Config) (evs : List BulkEvent),
        runCancelled BulkConvertDialog.applyEvent d cfg evs = (cfg, Effects.none))
    ∧ (∀ (d : SettingsMenuDialog) (cfg : Config) (evs : List MenuEvent),
        runCancelled SettingsMenuDialog.applyEvent d cfg evs = (cfg, Effects.none)) :=
  ⟨fun d cfg evs => runCancelled_const PasteDialog.applyEvent d cfg evs,
   fun d cfg evs => runCancelled_const BulkConvertDialog.applyEvent d cfg evs,
   fun d cfg evs => runCancelled_const SettingsMenuDialog.applyEvent d cfg evs⟩

/-- C6: for each specialization and either outcome, the session's phase
history consists of the four setup phases exactly once each, in order, as
contiguous completed blocks, followed by the interactive phase and only then
by commit (on accept) or cancellation. -/
theorem lifecycle_phase_order :
    ∀ (k : DialogKind) (accepted : Bool),
      (sessionPhases k accepted).destutter (· ≠ ·)
        = [Phase.buildLayout, Phase.populateLayout, Phase.wireInteractions,
            Phase.loadInitialValues, Phase.interactive]
          ++ (if accepted then [Phase.commit] else [Phase.cancelled]) := by
  intro k accepted
  cases k <;> cases accepted <;> rfl

/-- C7 counterexample: the claim says the commit phase performs no store
write of its own, but `SettingsDialog.accept` calls `write_config()`
(src/gui.py line 83): at a concrete state its persist count is not zero. -/
theorem commit_persists_cex :
    ¬ ((SettingsDialog.accept
          { sliders := boxOf 640 480 90 99999 99999, presets_editor := [] }
          configFixture).2.write_config_calls = 0) := by
  decide

/-- C7 (amended): on commit the dialog mutates the configuration map and
itself persists it, calling `write_config` exactly once; persistence is not
left to the caller. -/
theorem commit_mutates_and_persists (d : SettingsDialog) (cfg : Config) :
    SettingsDialog.accept d cfg
      = ({ cfg with
            image_width := d.sliders.image_width.value
            image_height := d.sliders.image_height.value
            image_quality := d.sliders.image_quality.value
            saved_presets := d.presets_editor },
         { write_config_calls := 1, showInfo_calls := 0, accepted := true }) :=
  rfl

/-- C8: `get_all_keys` returns the union of all field names across the notes
as a strictly ascending (hence duplicate-free) list. -/
theorem get_all_keys_sorted_union (notes : List (List String)) :
    List.Sorted (· < ·) (get_all_keys notes)
    ∧ (get_all_keys notes).Nodup
    ∧ ∀ k : String, k ∈ get_all_keys notes ↔ ∃ note ∈ notes, k ∈ note := by
  have hperm : List.Perm ((notes.flatten.dedup).insertionSort (· ≤ ·)) notes.flatten.dedup :=
    List.perm_insertionSort _ _
  have hnd : (get_all_keys notes).Nodup :=
    (hperm.nodup_iff).mpr (List.nodup_dedup _)
  have hle : List.Sorted (· ≤ ·) (get_all_keys notes) :=
    List.sorted_insertionSort _ _
  refine ⟨hle.lt_of_le hnd, hnd, ?_⟩
  intro k
  unfold get_all_keys
  rw [hperm.mem_iff, List.mem_dedup, List.mem_flatten]

/-- C9: `adjust_sliders` reads the fixed original image size, not the
panel's current values: a second identical press with both produced values
non-zero changes nothing, and the produced non-zero width (resp. height)
agrees between any two panels over the same image with the same slider
limit. -/
theorem scale_presses_do_not_compound (d : PasteDialog) (f : Factor) :
    ((d.adjust_sliders f).base.sliders.width > 0 →
      (d.adjust_sliders f).base.sliders.height > 0 →
      (d.adjust_sliders f).adjust_sliders f = d.adjust_sliders f)
    ∧ (∀ d2 : PasteDialog, d2.image = d.image →
        d2.base.sliders.image_width.limit = d.base.sliders.image_width.limit →
        d.base.sliders.width > 0 → d2.base.sliders.width > 0 →
        (d.adjust_sliders f).base.sliders.width = (d2.adjust_sliders f).base.sliders.width)
    ∧ (∀ d2 : PasteDialog, d2.image = d.image →
        d2.base.sliders.image_height.limit = d.base.sliders.image_height.limit →
        d.base.sliders.height > 0 → d2.base.sliders.height > 0 →
        (d.adjust_sliders f).base.sliders.height
          = (d2.adjust_sliders f).base.sliders.height) := by
  refine ⟨fun _ _ => adjust_sliders_idem d f, ?_, ?_⟩
  · intro d2 himg hlim hd hd2
    rw [width_adjust_pos d f hd, width_adjust_pos d2 f hd2, himg, hlim]
  · intro d2 himg hlim hd hd2
    rw [height_adjust_pos d f hd, height_adjust_pos d2 f hd2, himg, hlim]

/-- C9 witness: on a concrete 800 x 600 image, pressing 0.5x twice equals
pressing it once, and two panels with different non-zero values produce the
same scaled width and height. -/
theorem scale_presses_do_not_compound_witness :
    ((pasteFixture 800 600 800 600).adjust_sliders Factor.half).adjust_sliders Factor.half
      = (pasteFixture 800 600 800 600).adjust_sliders Factor.half
    ∧ ((pasteFixture 800 600 800 600).adjust_sliders Factor.half).base.sliders.width
      = ((pasteFixture 800 600 123 456).adjust_sliders Factor.half).base.sliders.width
    ∧ ((pasteFixture 800 600 800 600).adjust_sliders Factor.half).base.sliders.height
      = ((pasteFixture 800 600 123 456).adjust_sliders Factor.half).base.sliders.height := by
  have h := scale_presses_do_not_compound (pasteFixture 800 600 800 600) Factor.half
  exact ⟨h.1 (by decide) (by decide),
    h.2.1 (pasteFixture 800 600 123 456) rfl rfl (by decide) (by decide),
    h.2.2 (pasteFixture 800 600 123 456) rfl rfl (by decide) (by decide)⟩

/-- C10: a scale press can zero a non-zero dimension — original width 1 with
factor 1/2 truncates to 0 — and afterwards every sequence of further scale
presses leaves that dimension at 0. -/
theorem scale_press_reaches_auto :
    (pasteFixture 1 600 1 600).base.sliders.width ≠ 0
    ∧ ((pasteFixture 1 600 1 600).adjust_sliders Factor.half).base.sliders.width = 0
    ∧ ∀ fs : List Factor,
        (fs.foldl PasteDialog.adjust_sliders
          ((pasteFixture 1 600 1 600).adjust_sliders Factor.half)).base.sliders.width = 0 := by
  refine ⟨by decide, by decide, ?_⟩
  intro fs
  exact foldl_adjust_width_zero fs _ (by decide)

end PasteImagesAsWebP
